import Mathlib

/-!
# Reading List Service: shallow embedding and verification

This file embeds the two variants of the reading-list CRUD service:

* the durable (relational) variant of `src/reading-service/app.py`,
  modelled in namespace `DB`;
* the transient (in-memory) variant of `src/reading-service/app_step1_inmemory.py`,
  modelled in namespace `Mem`.

Modelling conventions:

* Machine time (`datetime.now()` / SQL `CURRENT_TIMESTAMP`) is an external
  `now : Nat` argument threaded into the operations that read the clock.
* Request payloads are typed records (`Payload`) of optional fields; a JSON
  body in which `title`, `author` or `notes` is bound to a non-string value
  (which would raise `AttributeError` in the handlers) is not representable.
  The `rating` field keeps its raw JSON value (`Jval`) because the code
  distinguishes absent / null / number / string ratings.  `extra` records
  whether the payload carries keys outside the five recognized fields, which
  only matters for Python dict truthiness (`if not data`).
* Python `float(...)` is modelled by `pyFloat?` (sign, integer and fraction
  parts; exponents, infinities and NaN strings are not modelled — no claim
  depends on them).  The `DECIMAL(2,1)` rounding of the relational column is
  likewise not modelled; stored ratings keep their exact rational value.
* HTTP responses are abstracted to outcome class, status code, record
  contents and message (`Resp`); the concrete JSON envelope shape is not part
  of the model.
-/

namespace ReadingList

/-- A JSON scalar value, as handled by the handlers for the `rating` field. -/
inductive Jval where
  | jnull
  | jbool (b : Bool)
  | jnum (q : Rat)
  | jstr (s : String)
deriving DecidableEq

/-- Characters stripped by Python `str.strip()`. -/
def isPySpace (c : Char) : Bool :=
  c == ' ' || c == '\t' || c == '\n' || c == '\r' || c == '\x0b' || c == '\x0c'

/-- Python `str.strip()` on the character list: drop leading and trailing
whitespace. -/
def pyStripList (l : List Char) : List Char :=
  ((l.dropWhile isPySpace).reverse.dropWhile isPySpace).reverse

/-- Python `str.strip()`. -/
def pyStrip (s : String) : String :=
  String.mk (pyStripList s.data)

def digitVal (c : Char) : Nat := c.toNat - 48

def allDigits (l : List Char) : Bool := l.all Char.isDigit

def digitsVal (l : List Char) : Nat :=
  l.foldl (fun a c => 10 * a + digitVal c) 0

/-- Parse an unsigned decimal literal (integer part, optional fraction),
as accepted by Python `float(...)` (exponents not modelled). -/
def parseUnsignedFloat? (l : List Char) : Option Rat :=
  let ip := l.takeWhile (fun c => c != '.')
  let rest := l.dropWhile (fun c => c != '.')
  match rest with
  | [] => if !ip.isEmpty && allDigits ip then some ((digitsVal ip : Rat)) else none
  | _ :: frac =>
    if (!ip.isEmpty || !frac.isEmpty) && allDigits ip && allDigits frac then
      some ((digitsVal ip : Rat) + (digitsVal frac : Rat) / ((10 : Rat) ^ frac.length))
    else none

/-- Python `float(s)` on a string: optional surrounding whitespace and sign. -/
def pyFloatOfString? (s : String) : Option Rat :=
  match pyStripList s.data with
  | '+' :: rest => parseUnsignedFloat? rest
  | '-' :: rest => (parseUnsignedFloat? rest).map (fun q => -q)
  | l => parseUnsignedFloat? l

/-- Python `float(v)` on a JSON value: numbers and booleans convert, numeric
strings parse, `None` and non-numeric strings raise (`none`). -/
def pyFloat? : Jval → Option Rat
  | Jval.jnull => none
  | Jval.jbool b => some (if b then 1 else 0)
  | Jval.jnum q => some q
  | Jval.jstr s => pyFloatOfString? s

/-- A request payload: each recognized field is present or absent; `extra`
records the presence of unrecognized keys (for dict truthiness). -/
structure Payload where
  title : Option String := none
  author : Option String := none
  status : Option String := none
  rating : Option Jval := none
  notes : Option String := none
  extra : Bool := false
deriving DecidableEq

/-- Python `not data`: the body was absent/null or an empty dict. -/
def Payload.isEmptyP (p : Payload) : Bool :=
  p.title.isNone && p.author.isNone && p.status.isNone && p.rating.isNone &&
    p.notes.isNone && !p.extra

/-- A stored book record.  `rating` is a `Jval` because the transient variant
stores the raw payload value; the durable variant only ever stores
`jnull` or `jnum`. -/
structure Book where
  id : Nat
  title : String
  author : String
  status : String
  rating : Jval
  notes : String
  date_added : Nat
  date_updated : Nat
deriving DecidableEq

/-- An HTTP response, abstracted to outcome, code, record contents, message. -/
inductive Resp where
  | rbook (code : Nat) (b : Book)
  | rdeleted (code : Nat) (b : Book)
  | rlist (code : Nat) (books : List Book) (total : Nat)
  | rhealth (code : Nat) (total : Nat)
  | rerr (code : Nat) (msg : String)
deriving DecidableEq

/-- The observable part of a response as the equivalence claim phrases it:
success/error outcome (status code) plus record contents. -/
def Resp.obs : Resp → Nat × Option Book
  | Resp.rbook c b => (c, some b)
  | Resp.rdeleted c b => (c, some b)
  | Resp.rlist c _ _ => (c, none)
  | Resp.rhealth c _ => (c, none)
  | Resp.rerr c _ => (c, none)

def valid_statuses : List String := ["want-to-read", "reading", "completed"]

/-- A single-quote character, for embedding Python repr output. -/
def sq : String := String.singleton (Char.ofNat 39)

/-- `f"Invalid status. Must be one of: {valid_statuses}"` as Python formats
the list. -/
def invalid_status_msg_db : String :=
  "Invalid status. Must be one of: [" ++ sq ++ "want-to-read" ++ sq ++ ", " ++
    sq ++ "reading" ++ sq ++ ", " ++ sq ++ "completed" ++ sq ++ "]"

/-- `f"Status must be one of: {', '.join(valid_statuses)}"`. -/
def invalid_status_msg_mem : String :=
  "Status must be one of: " ++ String.intercalate ", " valid_statuses

/-- The shared rating check: `float(...)` then the range test (run by both
variants once the rating value is handed to it). `some msg` on failure. -/
def rating_error (v : Jval) : Option String :=
  match pyFloat? v with
  | none => some "Rating must be a number"
  | some q => if q < 1 ∨ q > 5 then some "Rating must be between 1 and 5" else none

/-- Ordering used by the durable `SELECT ... ORDER BY date_added DESC`. -/
def byDateDesc (a b : Book) : Prop := b.date_added ≤ a.date_added

instance : DecidableRel byDateDesc :=
  fun a b => inferInstanceAs (Decidable (b.date_added ≤ a.date_added))

instance : IsTotal Book byDateDesc :=
  ⟨fun a b => Nat.le_total b.date_added a.date_added⟩

instance : IsTrans Book byDateDesc :=
  ⟨fun _ _ _ h1 h2 => Nat.le_trans h2 h1⟩

/-- State of the durable variant: the `books` table (rows in insertion
order) and the `SERIAL` id sequence. -/
structure DState where
  books : List Book
  nextId : Nat
deriving DecidableEq

/-- State of the transient variant: the module-level `books_storage` list
and `next_book_id` counter. -/
structure MState where
  books_storage : List Book
  next_book_id : Nat
deriving DecidableEq

namespace DB

def initState : DState := { books := [], nextId := 1 }

/-- `SELECT * FROM books WHERE id = %s` (first row with the id). -/
def find_book_by_id (st : DState) (book_id : Nat) : Option Book :=
  st.books.find? (fun b => b.id == book_id)

/-- `'title'/'author' absent or falsy after strip` in the durable validator. -/
def requiredMissing (v : Option String) : Bool :=
  match v with
  | none => true
  | some s => (pyStripList s.data).isEmpty

/-- `validate_book_data` of `app.py`. -/
def validate_book_data (data : Payload) : Bool × String :=
  if data.isEmptyP then (false, "No data provided")
  else if requiredMissing data.title then (false, "Missing required field: title")
  else if requiredMissing data.author then (false, "Missing required field: author")
  else if data.status.isSome && !(valid_statuses.contains (data.status.getD "")) then
    (false, invalid_status_msg_db)
  else
    match data.rating with
    | some v =>
      if v = Jval.jnull then (true, "Valid")
      else
        match rating_error v with
        | some msg => (false, msg)
        | none => (true, "Valid")
    | none => (true, "Valid")

/-- What lands in the `DECIMAL` column when a validated rating value is
inserted: numbers (or numeric strings) as their value, null as NULL. -/
def db_rating_val (v : Jval) : Jval :=
  match pyFloat? v with
  | some q => Jval.jnum q
  | none => Jval.jnull

def db_rating_stored (r : Option Jval) : Jval :=
  match r with
  | none => Jval.jnull
  | some v => db_rating_val v

/-- The row the durable `INSERT INTO books ... RETURNING *` produces:
title, author and notes stripped, status defaulted, timestamps set. -/
def new_book_row (st : DState) (data : Payload) (now : Nat) : Book :=
  { id := st.nextId,
    title := pyStrip (data.title.getD ""),
    author := pyStrip (data.author.getD ""),
    status := data.status.getD "want-to-read",
    rating := db_rating_stored data.rating,
    notes := pyStrip (data.notes.getD ""),
    date_added := now,
    date_updated := now }

/-- `POST /books` handler `add_new_book` of `app.py`. -/
def add_new_book (st : DState) (data : Payload) (now : Nat) : Resp × DState :=
  match validate_book_data data with
  | (false, message) => (Resp.rerr 400 message, st)
  | (true, _) =>
    (Resp.rbook 201 (new_book_row st data now),
     { st with books := st.books ++ [new_book_row st data now], nextId := st.nextId + 1 })

/-- `GET /books` handler: `SELECT * FROM books ORDER BY date_added DESC`. -/
def get_all_books (st : DState) : Resp :=
  let books_list := List.insertionSort byDateDesc st.books
  Resp.rlist 200 books_list books_list.length

def not_found_msg (book_id : Nat) : String :=
  "Book with ID " ++ toString book_id ++ " not found"

/-- `GET /books/<id>` handler of `app.py`. -/
def get_book_by_id (st : DState) (book_id : Nat) : Resp :=
  match find_book_by_id st book_id with
  | none => Resp.rerr 404 (not_found_msg book_id)
  | some book => Resp.rbook 200 book

/-- The update-handler rating check: run when `rating` is present and not
null. -/
def rating_check_upd (r : Option Jval) : Option String :=
  match r with
  | none => none
  | some v => if v = Jval.jnull then none else rating_error v

def countOpt {α : Type} : Option α → Nat
  | some _ => 1
  | none => 0

/-- The update-handler filter for `title`: included only when present and
non-blank after strip (`if 'title' in data and data['title'].strip()`). -/
def title_upd (data : Payload) : Option String :=
  match data.title with
  | some t => if (pyStripList t.data).isEmpty then none else some (pyStrip t)
  | none => none

/-- The update-handler filter for `author`. -/
def author_upd (data : Payload) : Option String :=
  match data.author with
  | some a => if (pyStripList a.data).isEmpty then none else some (pyStrip a)
  | none => none

/-- How many entries besides the timestamp the dynamic UPDATE carries. -/
def num_update_fields (data : Payload) : Nat :=
  countOpt (title_upd data) + countOpt (author_upd data) + countOpt data.status +
    countOpt (data.rating.map db_rating_val) + countOpt (data.notes.map pyStrip)

/-- The effect of the dynamic `UPDATE ... SET` on a row. -/
def apply_upd (data : Payload) (now : Nat) (b : Book) : Book :=
  { b with
    title := (title_upd data).getD b.title,
    author := (author_upd data).getD b.author,
    status := data.status.getD b.status,
    rating := (data.rating.map db_rating_val).getD b.rating,
    notes := (data.notes.map pyStrip).getD b.notes,
    date_updated := now }

/-- `PUT /books/<id>` handler `update_book` of `app.py`: existence check,
inline status/rating validation, then the dynamically built UPDATE. -/
def update_book (st : DState) (book_id : Nat) (data : Payload) (now : Nat) :
    Resp × DState :=
  match find_book_by_id st book_id with
  | none => (Resp.rerr 404 (not_found_msg book_id), st)
  | some book =>
    if data.isEmptyP then (Resp.rerr 400 "No data provided", st)
    else if data.status.isSome && !(valid_statuses.contains (data.status.getD "")) then
      (Resp.rerr 400 invalid_status_msg_db, st)
    else
      match rating_check_upd data.rating with
      | some msg => (Resp.rerr 400 msg, st)
      | none =>
        if 0 < num_update_fields data then
          (Resp.rbook 200 (apply_upd data now book),
           { st with books :=
              st.books.map (fun b => if b.id == book_id then apply_upd data now b else b) })
        else (Resp.rerr 400 "No valid fields to update", st)

/-- `DELETE /books/<id>` handler of `app.py`. -/
def delete_book (st : DState) (book_id : Nat) : Resp × DState :=
  match find_book_by_id st book_id with
  | none => (Resp.rerr 404 (not_found_msg book_id), st)
  | some book =>
    (Resp.rdeleted 200 book,
     { st with books := st.books.filter (fun b => !(b.id == book_id)) })

/-- `GET /health` handler of `app.py` (the reachable-database path). -/
def health_check (st : DState) : Resp :=
  Resp.rhealth 200 st.books.length

end DB

namespace Mem

def initState : MState := { books_storage := [], next_book_id := 1 }

/-- The linear scan `find_book_by_id` of `app_step1_inmemory.py`. -/
def find_book_by_id (st : MState) (book_id : Nat) : Option Book :=
  st.books_storage.find? (fun b => b.id == book_id)

/-- Python truthiness of `data.get(field)` for a string field. -/
def truthyStr : Option String → Bool
  | some s => !s.isEmpty
  | none => false

/-- `validate_book_data` of `app_step1_inmemory.py`. -/
def validate_book_data (data : Payload) : Bool × Option String :=
  if !(truthyStr data.title) then (false, some "Title is required")
  else if !(truthyStr data.author) then (false, some "Author is required")
  else if data.status.isSome && !(valid_statuses.contains (data.status.getD "")) then
    (false, some invalid_status_msg_mem)
  else
    match data.rating with
    | some v =>
      match rating_error v with
      | some msg => (false, some msg)
      | none => (true, none)
    | none => (true, none)

/-- The dict the transient create builds: fields stored verbatim. -/
def new_book_row (st : MState) (data : Payload) (now : Nat) : Book :=
  { id := st.next_book_id,
    title := data.title.getD "",
    author := data.author.getD "",
    status := data.status.getD "want-to-read",
    rating := data.rating.getD Jval.jnull,
    notes := data.notes.getD "",
    date_added := now,
    date_updated := now }

/-- `POST /books` handler of `app_step1_inmemory.py`: fields stored verbatim. -/
def add_new_book (st : MState) (data : Payload) (now : Nat) : Resp × MState :=
  if data.isEmptyP then (Resp.rerr 400 "No data provided", st)
  else
    match validate_book_data data with
    | (false, msg) => (Resp.rerr 400 (msg.getD ""), st)
    | (true, _) =>
      (Resp.rbook 201 (new_book_row st data now),
       { st with books_storage := st.books_storage ++ [new_book_row st data now],
                 next_book_id := st.next_book_id + 1 })

/-- `GET /books` handler: returns `books_storage` in insertion order. -/
def get_all_books (st : MState) : Resp :=
  Resp.rlist 200 st.books_storage st.books_storage.length

/-- `GET /books/<id>` handler of `app_step1_inmemory.py`. -/
def get_book_by_id (st : MState) (book_id : Nat) : Resp :=
  match find_book_by_id st book_id with
  | none => Resp.rerr 404 "Book not found"
  | some book => Resp.rbook 200 book

/-- In-place mutation of the first stored dict with the given id. -/
def setFirst (book_id : Nat) (nb : Book) : List Book → List Book
  | [] => []
  | b :: bs => if b.id == book_id then nb :: bs else b :: setFirst book_id nb bs

/-- `PUT /books/<id>` handler of `app_step1_inmemory.py`: existence check,
then validation only when `title` or `author` is in the payload (on the
payload merged with the stored values), then verbatim field assignment. -/
def update_book (st : MState) (book_id : Nat) (data : Payload) (now : Nat) :
    Resp × MState :=
  match find_book_by_id st book_id with
  | none => (Resp.rerr 404 "Book not found", st)
  | some book =>
    if data.isEmptyP then (Resp.rerr 400 "No data provided", st)
    else
      let newBook : Book :=
        { book with
          title := data.title.getD book.title,
          author := data.author.getD book.author,
          status := data.status.getD book.status,
          rating := data.rating.getD book.rating,
          notes := data.notes.getD book.notes,
          date_updated := now }
      let proceed : Resp × MState :=
        (Resp.rbook 200 newBook,
         { st with books_storage := setFirst book_id newBook st.books_storage })
      if data.title.isSome || data.author.isSome then
        match validate_book_data
            { title := some (data.title.getD book.title),
              author := some (data.author.getD book.author),
              status := data.status,
              rating := data.rating,
              notes := data.notes,
              extra := data.extra } with
        | (false, msg) => (Resp.rerr 400 (msg.getD ""), st)
        | (true, _) => proceed
      else proceed

/-- `DELETE /books/<id>` handler: `books_storage.remove(book)` removes the
first element equal to the found book, i.e. the first with that id. -/
def delete_book (st : MState) (book_id : Nat) : Resp × MState :=
  match find_book_by_id st book_id with
  | none => (Resp.rerr 404 "Book not found", st)
  | some book =>
    (Resp.rdeleted 200 book,
     { st with books_storage := st.books_storage.eraseP (fun b => b.id == book_id) })

/-- `GET /health` handler of `app_step1_inmemory.py`. -/
def health_check (st : MState) : Resp :=
  Resp.rhealth 200 st.books_storage.length

end Mem

/-! ## Scaffolding definitions used by the claim theorems -/

/-- An external request in a create/delete trace. -/
inductive TraceOp where
  | createOp (p : Payload)
  | deleteOp (i : Nat)

/-- Run a trace against the transient service, collecting the ids returned by
successful creates; the clock ticks once per request. -/
def memRunOps : MState → Nat → List TraceOp → List Nat
  | _, _, [] => []
  | st, t, TraceOp.createOp p :: ops =>
    match Mem.add_new_book st p t with
    | (Resp.rbook _ b, st2) => b.id :: memRunOps st2 (t + 1) ops
    | (_, st2) => memRunOps st2 (t + 1) ops
  | st, t, TraceOp.deleteOp i :: ops => memRunOps (Mem.delete_book st i).2 (t + 1) ops

/-- Run a trace against the durable service, collecting the ids returned by
successful creates. -/
def dbRunOps : DState → Nat → List TraceOp → List Nat
  | _, _, [] => []
  | st, t, TraceOp.createOp p :: ops =>
    match DB.add_new_book st p t with
    | (Resp.rbook _ b, st2) => b.id :: dbRunOps st2 (t + 1) ops
    | (_, st2) => dbRunOps st2 (t + 1) ops
  | st, t, TraceOp.deleteOp i :: ops => dbRunOps (DB.delete_book st i).2 (t + 1) ops

/-- The transient state after creating book "A" at time 0 and book "B" at
time 1 (the scenario of the C3 counterexample). -/
def c3_state : MState :=
  (Mem.add_new_book
    (Mem.add_new_book Mem.initState { title := some "A", author := some "a" } 0).2
    { title := some "B", author := some "b" } 1).2

def c3_bookA : Book :=
  { id := 1, title := "A", author := "a", status := "want-to-read",
    rating := Jval.jnull, notes := "", date_added := 0, date_updated := 0 }

def c3_bookB : Book :=
  { id := 2, title := "B", author := "b", status := "want-to-read",
    rating := Jval.jnull, notes := "", date_added := 1, date_updated := 1 }

/-- The create payload `{"title": "T", "author": "A", "rating": null}` used
by the C1 counterexample. -/
def c1_payload : Payload :=
  { title := some "T", author := some "A", rating := some Jval.jnull }

/-- The record the durable variant creates from `c1_payload` at time 0. -/
def c1_book : Book :=
  { id := 1, title := "T", author := "A", status := "want-to-read",
    rating := Jval.jnull, notes := "", date_added := 0, date_updated := 0 }

/-- The transient state holding one book created at time 0 (used by the C4
and C5 counterexamples). -/
def c4_state : MState :=
  (Mem.add_new_book Mem.initState { title := some "A", author := some "a" } 0).2

def c4_book5 : Book :=
  { id := 1, title := "A", author := "a", status := "want-to-read",
    rating := Jval.jnull, notes := "", date_added := 0, date_updated := 5 }

/-- A text field is in stripped form: stripping it changes nothing, i.e. it
carries no leading or trailing whitespace. -/
def stripped (s : String) : Prop := pyStrip s = s

/-- All text fields of a stored book are in stripped form. -/
def cleanBook (b : Book) : Prop :=
  stripped b.title ∧ stripped b.author ∧ stripped b.notes

/-- The create payload with surrounding whitespace used by the C10 witness. -/
def c10_payload : Payload :=
  { title := some " Dune ", author := some " Herbert ", notes := some " n " }

/-- What the durable variant stores for `c10_payload`: fields stripped. -/
def c10_db_book : Book :=
  { id := 1, title := "Dune", author := "Herbert", status := "want-to-read",
    rating := Jval.jnull, notes := "n", date_added := 0, date_updated := 0 }

/-- What the transient variant stores for `c10_payload`: fields verbatim. -/
def c10_mem_book : Book :=
  { id := 1, title := " Dune ", author := " Herbert ", status := "want-to-read",
    rating := Jval.jnull, notes := " n ", date_added := 0, date_updated := 0 }

/-! ## Helper lemmas about `dropWhile`, `pyStrip` and id-unique lists -/

theorem dropWhile_head?_not {α : Type} (p : α → Bool) (l : List α) (c : α)
    (h : (l.dropWhile p).head? = some c) : p c = false := by
  induction l with
  | nil => simp [List.dropWhile] at h
  | cons a tl ih =>
    rw [List.dropWhile_cons] at h
    by_cases hp : p a = true
    · rw [if_pos hp] at h
      exact ih h
    · rw [if_neg hp] at h
      simp only [List.head?] at h
      cases h
      simpa using hp

theorem dropWhile_eq_self_of_head {α : Type} (p : α → Bool) (l : List α)
    (h : ∀ c, l.head? = some c → p c = false) : l.dropWhile p = l := by
  cases l with
  | nil => rfl
  | cons a tl =>
    have ha := h a rfl
    rw [List.dropWhile_cons, if_neg (by simp [ha])]

theorem getLast?_dropWhile {α : Type} (p : α → Bool) (l : List α)
    (h : l.dropWhile p ≠ []) : (l.dropWhile p).getLast? = l.getLast? := by
  induction l with
  | nil => simp [List.dropWhile] at h
  | cons a tl ih =>
    rw [List.dropWhile_cons] at h ⊢
    by_cases hp : p a = true
    · rw [if_pos hp] at h ⊢
      rw [ih h]
      cases tl with
      | nil => simp [List.dropWhile] at h
      | cons b tl2 => rw [List.getLast?_cons_cons]
    · rw [if_neg hp]

theorem pyStripList_head (l : List Char) (c : Char)
    (h : (pyStripList l).head? = some c) : isPySpace c = false := by
  unfold pyStripList at h
  rw [List.head?_reverse] at h
  have hy : (List.dropWhile isPySpace l).reverse.dropWhile isPySpace ≠ [] := by
    intro he
    rw [he] at h
    simp at h
  rw [getLast?_dropWhile _ _ hy, List.getLast?_reverse] at h
  exact dropWhile_head?_not _ _ _ h

theorem pyStripList_getLast (l : List Char) (c : Char)
    (h : (pyStripList l).getLast? = some c) : isPySpace c = false := by
  unfold pyStripList at h
  rw [List.getLast?_reverse] at h
  exact dropWhile_head?_not _ _ _ h

theorem pyStripList_idem (l : List Char) :
    pyStripList (pyStripList l) = pyStripList l := by
  have h1 : List.dropWhile isPySpace (pyStripList l) = pyStripList l :=
    dropWhile_eq_self_of_head isPySpace (pyStripList l) (pyStripList_head l)
  have h2 : List.dropWhile isPySpace (pyStripList l).reverse = (pyStripList l).reverse :=
    dropWhile_eq_self_of_head isPySpace (pyStripList l).reverse (by
      intro c hc
      rw [List.head?_reverse] at hc
      exact pyStripList_getLast l c hc)
  calc pyStripList (pyStripList l)
      = ((List.dropWhile isPySpace (pyStripList l)).reverse.dropWhile isPySpace).reverse := rfl
    _ = ((pyStripList l).reverse.dropWhile isPySpace).reverse := by rw [h1]
    _ = ((pyStripList l).reverse).reverse := by rw [h2]
    _ = pyStripList l := List.reverse_reverse _

theorem pyStrip_idem (s : String) : pyStrip (pyStrip s) = pyStrip s := by
  show String.mk (pyStripList (String.mk (pyStripList s.data)).data) =
    String.mk (pyStripList s.data)
  rw [show (String.mk (pyStripList s.data)).data = pyStripList s.data from rfl,
    pyStripList_idem]

theorem filter_eq_eraseP_of_unique (l : List Book) (i : Nat)
    (h : (l.map Book.id).Nodup) :
    l.filter (fun b => !(b.id == i)) = l.eraseP (fun b => b.id == i) := by
  induction l with
  | nil => rfl
  | cons a tl ih =>
    rw [List.map_cons, List.nodup_cons] at h
    obtain ⟨ha, htl⟩ := h
    by_cases hid : a.id = i
    · subst hid
      rw [List.filter_cons, List.eraseP_cons]
      simp only [beq_self_eq_true, Bool.not_true, cond_true]
      rw [if_neg (by simp)]
      apply List.filter_eq_self.mpr
      intro b hb
      have hne : b.id ≠ a.id := by
        intro he
        exact ha (he ▸ List.mem_map_of_mem Book.id hb)
      simp [hne]
    · have hb : (a.id == i) = false := by simp [hid]
      rw [List.filter_cons, List.eraseP_cons]
      simp [hb, ih htl]

theorem find?_filter_ne (l : List Book) (i : Nat) :
    (l.filter (fun b => !(b.id == i))).find? (fun b => b.id == i) = none := by
  apply List.find?_eq_none.mpr
  intro x hx
  rw [List.mem_filter] at hx
  simpa using hx.2

theorem find?_eraseP_unique (l : List Book) (i : Nat)
    (h : (l.map Book.id).Nodup) :
    (l.eraseP (fun b => b.id == i)).find? (fun b => b.id == i) = none := by
  rw [← filter_eq_eraseP_of_unique l i h]
  exact find?_filter_ne l i

/-! ## Claim theorems -/

/-- C2: in both variants, updating an id that is not in storage returns the
not-found response for every payload — including payloads that would fail
validation — and leaves the state untouched, because the existence lookup
runs before any validation. -/
theorem c2_update_not_found_before_validation
    (dst : DState) (mst : MState) (i now : Nat) (data : Payload)
    (hd : DB.find_book_by_id dst i = none)
    (hm : Mem.find_book_by_id mst i = none) :
    DB.update_book dst i data now = (Resp.rerr 404 (DB.not_found_msg i), dst) ∧
    Mem.update_book mst i data now = (Resp.rerr 404 "Book not found", mst) := by
  constructor
  · unfold DB.update_book
    rw [hd]
  · unfold Mem.update_book
    rw [hm]

theorem c2_witness :
    DB.update_book DB.initState 9999 { status := some "bogus" } 0
      = (Resp.rerr 404 (DB.not_found_msg 9999), DB.initState) ∧
    Mem.update_book Mem.initState 9999 { status := some "bogus" } 0
      = (Resp.rerr 404 "Book not found", Mem.initState) :=
  c2_update_not_found_before_validation DB.initState Mem.initState 9999 0
    { status := some "bogus" } (by decide) (by decide)

/-- C8: in both variants, deleting an existing book returns the record as it
was immediately before removal, and afterwards a get on the same id and a
second delete on the same id both return not-found (for the transient
variant this uses that stored ids are unique, which the id counter
guarantees; see the C9 development). -/
theorem c8_delete_semantics
    (dst : DState) (mst : MState) (i : Nat) (bd bm : Book)
    (hd : DB.find_book_by_id dst i = some bd)
    (hm : Mem.find_book_by_id mst i = some bm)
    (hnodup : (mst.books_storage.map Book.id).Nodup) :
    (DB.delete_book dst i).1 = Resp.rdeleted 200 bd ∧
    DB.get_book_by_id (DB.delete_book dst i).2 i = Resp.rerr 404 (DB.not_found_msg i) ∧
    (DB.delete_book (DB.delete_book dst i).2 i).1 = Resp.rerr 404 (DB.not_found_msg i) ∧
    (Mem.delete_book mst i).1 = Resp.rdeleted 200 bm ∧
    Mem.get_book_by_id (Mem.delete_book mst i).2 i = Resp.rerr 404 "Book not found" ∧
    (Mem.delete_book (Mem.delete_book mst i).2 i).1 = Resp.rerr 404 "Book not found" := by
  have hdel : DB.delete_book dst i =
      (Resp.rdeleted 200 bd,
       { dst with books := dst.books.filter (fun b => !(b.id == i)) }) := by
    unfold DB.delete_book
    rw [hd]
  have hfind2 : DB.find_book_by_id
      { dst with books := dst.books.filter (fun b => !(b.id == i)) } i = none :=
    find?_filter_ne dst.books i
  have hmdel : Mem.delete_book mst i =
      (Resp.rdeleted 200 bm,
       { mst with books_storage := mst.books_storage.eraseP (fun b => b.id == i) }) := by
    unfold Mem.delete_book
    rw [hm]
  have hmfind2 : Mem.find_book_by_id
      { mst with books_storage := mst.books_storage.eraseP (fun b => b.id == i) } i = none :=
    find?_eraseP_unique mst.books_storage i hnodup
  refine ⟨by rw [hdel], ?_, ?_, by rw [hmdel], ?_, ?_⟩
  · rw [hdel]
    unfold DB.get_book_by_id
    rw [hfind2]
  · rw [hdel]
    unfold DB.delete_book
    rw [hfind2]
  · rw [hmdel]
    unfold Mem.get_book_by_id
    rw [hmfind2]
  · rw [hmdel]
    unfold Mem.delete_book
    rw [hmfind2]

theorem c8_witness :
    (DB.delete_book { books := [⟨1, "Dune", "Herbert", "want-to-read", Jval.jnull, "", 0, 0⟩], nextId := 2 } 1).1
      = Resp.rdeleted 200 ⟨1, "Dune", "Herbert", "want-to-read", Jval.jnull, "", 0, 0⟩ ∧
    DB.get_book_by_id (DB.delete_book { books := [⟨1, "Dune", "Herbert", "want-to-read", Jval.jnull, "", 0, 0⟩], nextId := 2 } 1).2 1
      = Resp.rerr 404 (DB.not_found_msg 1) ∧
    (DB.delete_book (DB.delete_book { books := [⟨1, "Dune", "Herbert", "want-to-read", Jval.jnull, "", 0, 0⟩], nextId := 2 } 1).2 1).1
      = Resp.rerr 404 (DB.not_found_msg 1) ∧
    (Mem.delete_book { books_storage := [⟨1, "Dune", "Herbert", "want-to-read", Jval.jnull, "", 0, 0⟩], next_book_id := 2 } 1).1
      = Resp.rdeleted 200 ⟨1, "Dune", "Herbert", "want-to-read", Jval.jnull, "", 0, 0⟩ ∧
    Mem.get_book_by_id (Mem.delete_book { books_storage := [⟨1, "Dune", "Herbert", "want-to-read", Jval.jnull, "", 0, 0⟩], next_book_id := 2 } 1).2 1
      = Resp.rerr 404 "Book not found" ∧
    (Mem.delete_book (Mem.delete_book { books_storage := [⟨1, "Dune", "Herbert", "want-to-read", Jval.jnull, "", 0, 0⟩], next_book_id := 2 } 1).2 1).1
      = Resp.rerr 404 "Book not found" :=
  c8_delete_semantics
    { books := [⟨1, "Dune", "Herbert", "want-to-read", Jval.jnull, "", 0, 0⟩], nextId := 2 }
    { books_storage := [⟨1, "Dune", "Herbert", "want-to-read", Jval.jnull, "", 0, 0⟩], next_book_id := 2 }
    1 ⟨1, "Dune", "Herbert", "want-to-read", Jval.jnull, "", 0, 0⟩
    ⟨1, "Dune", "Herbert", "want-to-read", Jval.jnull, "", 0, 0⟩
    (by decide) (by decide) (by decide)

/-- C3 amended: the durable variant's list endpoint returns a permutation of
the stored records sorted by `date_added` descending; the transient variant
returns `books_storage` in insertion order (oldest first), so a book created
after another appears after it, not before. -/
theorem c3_list_order_amended (dst : DState) (mst : MState) :
    (∃ bs, DB.get_all_books dst = Resp.rlist 200 bs bs.length ∧
      List.Sorted byDateDesc bs ∧ bs.Perm dst.books) ∧
    Mem.get_all_books mst = Resp.rlist 200 mst.books_storage mst.books_storage.length :=
  ⟨⟨List.insertionSort byDateDesc dst.books, rfl,
    List.sorted_insertionSort byDateDesc dst.books,
    List.perm_insertionSort byDateDesc dst.books⟩, rfl⟩

/-- C3 counterexample: in the transient variant, after creating "A" and then
"B", `list_all` returns "B" after "A" (insertion order), although "B" has the
larger `date_added`; the result is not ordered by `date_added` descending. -/
theorem c3_counterexample :
    Mem.get_all_books c3_state = Resp.rlist 200 [c3_bookA, c3_bookB] 2 ∧
    c3_bookA.date_added < c3_bookB.date_added ∧
    ¬ byDateDesc c3_bookA c3_bookB := by
  refine ⟨by decide, by decide, by decide⟩

/-! ## Create/delete traces and id uniqueness (C9) -/

theorem mem_add_cases (st : MState) (p : Payload) (t : Nat) :
    (∃ msg, Mem.add_new_book st p t = (Resp.rerr 400 msg, st)) ∨
    (∃ b, Mem.add_new_book st p t =
      (Resp.rbook 201 b,
       { st with books_storage := st.books_storage ++ [b],
                 next_book_id := st.next_book_id + 1 }) ∧
      b.id = st.next_book_id) := by
  unfold Mem.add_new_book
  split
  · exact Or.inl ⟨_, rfl⟩
  · split
    · exact Or.inl ⟨_, rfl⟩
    · exact Or.inr ⟨_, rfl, rfl⟩

theorem db_add_cases (st : DState) (p : Payload) (t : Nat) :
    (∃ msg, DB.add_new_book st p t = (Resp.rerr 400 msg, st)) ∨
    (∃ b, DB.add_new_book st p t =
      (Resp.rbook 201 b, { st with books := st.books ++ [b], nextId := st.nextId + 1 }) ∧
      b.id = st.nextId) := by
  unfold DB.add_new_book
  split
  · exact Or.inl ⟨_, rfl⟩
  · exact Or.inr ⟨_, rfl, rfl⟩

theorem mem_delete_next (st : MState) (i : Nat) :
    (Mem.delete_book st i).2.next_book_id = st.next_book_id := by
  unfold Mem.delete_book
  split <;> rfl

theorem db_delete_next (st : DState) (i : Nat) :
    (DB.delete_book st i).2.nextId = st.nextId := by
  unfold DB.delete_book
  split <;> rfl

theorem memRunOps_lb (ops : List TraceOp) :
    ∀ (st : MState) (t x : Nat), x ∈ memRunOps st t ops → st.next_book_id ≤ x := by
  induction ops with
  | nil =>
    intro st t x hx
    simp [memRunOps] at hx
  | cons op ops ih =>
    intro st t x hx
    cases op with
    | createOp p =>
      simp only [memRunOps] at hx
      rcases mem_add_cases st p t with ⟨msg, he⟩ | ⟨b, he, hid⟩
      · rw [he] at hx
        exact ih st (t + 1) x hx
      · rw [he] at hx
        have hx2 : x ∈ b.id :: memRunOps
            { st with books_storage := st.books_storage ++ [b],
                      next_book_id := st.next_book_id + 1 } (t + 1) ops := hx
        rcases List.mem_cons.mp hx2 with h | h
        · omega
        · have h2 : st.next_book_id + 1 ≤ x := ih _ (t + 1) x h
          omega
    | deleteOp i =>
      simp only [memRunOps] at hx
      have h2 : (Mem.delete_book st i).2.next_book_id ≤ x := ih _ (t + 1) x hx
      rw [mem_delete_next st i] at h2
      exact h2

theorem dbRunOps_lb (ops : List TraceOp) :
    ∀ (st : DState) (t x : Nat), x ∈ dbRunOps st t ops → st.nextId ≤ x := by
  induction ops with
  | nil =>
    intro st t x hx
    simp [dbRunOps] at hx
  | cons op ops ih =>
    intro st t x hx
    cases op with
    | createOp p =>
      simp only [dbRunOps] at hx
      rcases db_add_cases st p t with ⟨msg, he⟩ | ⟨b, he, hid⟩
      · rw [he] at hx
        exact ih st (t + 1) x hx
      · rw [he] at hx
        have hx2 : x ∈ b.id :: dbRunOps
            { st with books := st.books ++ [b], nextId := st.nextId + 1 } (t + 1) ops := hx
        rcases List.mem_cons.mp hx2 with h | h
        · omega
        · have h2 : st.nextId + 1 ≤ x := ih _ (t + 1) x h
          omega
    | deleteOp i =>
      simp only [dbRunOps] at hx
      have h2 : (DB.delete_book st i).2.nextId ≤ x := ih _ (t + 1) x hx
      rw [db_delete_next st i] at h2
      exact h2

theorem memRunOps_pairwise (ops : List TraceOp) :
    ∀ (st : MState) (t : Nat), (memRunOps st t ops).Pairwise (· < ·) := by
  induction ops with
  | nil =>
    intro st t
    simp [memRunOps]
  | cons op ops ih =>
    intro st t
    cases op with
    | createOp p =>
      simp only [memRunOps]
      rcases mem_add_cases st p t with ⟨msg, he⟩ | ⟨b, he, hid⟩
      · rw [he]
        exact ih st (t + 1)
      · rw [he]
        show (b.id :: memRunOps
          { st with books_storage := st.books_storage ++ [b],
                    next_book_id := st.next_book_id + 1 } (t + 1) ops).Pairwise (· < ·)
        refine List.Pairwise.cons ?_ (ih _ (t + 1))
        intro x hx
        have h2 : st.next_book_id + 1 ≤ x := memRunOps_lb ops _ (t + 1) x hx
        omega
    | deleteOp i =>
      simp only [memRunOps]
      exact ih _ (t + 1)

theorem dbRunOps_pairwise (ops : List TraceOp) :
    ∀ (st : DState) (t : Nat), (dbRunOps st t ops).Pairwise (· < ·) := by
  induction ops with
  | nil =>
    intro st t
    simp [dbRunOps]
  | cons op ops ih =>
    intro st t
    cases op with
    | createOp p =>
      simp only [dbRunOps]
      rcases db_add_cases st p t with ⟨msg, he⟩ | ⟨b, he, hid⟩
      · rw [he]
        exact ih st (t + 1)
      · rw [he]
        show (b.id :: dbRunOps
          { st with books := st.books ++ [b], nextId := st.nextId + 1 } (t + 1) ops).Pairwise (· < ·)
        refine List.Pairwise.cons ?_ (ih _ (t + 1))
        intro x hx
        have h2 : st.nextId + 1 ≤ x := dbRunOps_lb ops _ (t + 1) x hx
        omega
    | deleteOp i =>
      simp only [dbRunOps]
      exact ih _ (t + 1)

/-- C9: along any sequence of create and delete requests, against either
variant, the ids returned by successful creates are pairwise distinct — an id
is never reused, even after the book carrying it is deleted (creates return
the monotonically increasing counter / `SERIAL` sequence value, and deletes
never decrease it). -/
theorem c9_ids_never_reused (ops : List TraceOp) (dst : DState) (mst : MState) (t u : Nat) :
    (dbRunOps dst t ops).Nodup ∧ (memRunOps mst u ops).Nodup :=
  ⟨(dbRunOps_pairwise ops dst t).imp (fun h => Nat.ne_of_lt h),
   (memRunOps_pairwise ops mst u).imp (fun h => Nat.ne_of_lt h)⟩

/-! ## C1: observable equivalence of the two variants -/

/-- C1 counterexample: on the create payload with a null rating the durable
variant succeeds (its validator skips a null rating) while the transient
variant rejects with "Rating must be a number" (its validator calls
`float(None)`); the observable outcomes differ. -/
theorem c1_counterexample :
    (DB.add_new_book DB.initState c1_payload 0).1 = Resp.rbook 201 c1_book ∧
    (Mem.add_new_book Mem.initState c1_payload 0).1 =
      Resp.rerr 400 "Rating must be a number" ∧
    Resp.obs (DB.add_new_book DB.initState c1_payload 0).1 ≠
      Resp.obs (Mem.add_new_book Mem.initState c1_payload 0).1 := by
  decide

/-- C1 amended: the variants are not observably equivalent on create, update
and list (see the counterexample); they do agree on read-one, delete and
count: on states holding the same records with unique ids, get and delete
produce the same observable outcome and record contents, delete leaves the
same stored records, and the health count agrees. -/
theorem c1_variants_equiv_amended
    (dst : DState) (mst : MState) (i : Nat)
    (hbooks : dst.books = mst.books_storage)
    (hnodup : (dst.books.map Book.id).Nodup) :
    Resp.obs (DB.get_book_by_id dst i) = Resp.obs (Mem.get_book_by_id mst i) ∧
    Resp.obs (DB.delete_book dst i).1 = Resp.obs (Mem.delete_book mst i).1 ∧
    (DB.delete_book dst i).2.books = (Mem.delete_book mst i).2.books_storage ∧
    DB.health_check dst = Mem.health_check mst := by
  have hfind : DB.find_book_by_id dst i = Mem.find_book_by_id mst i := by
    unfold DB.find_book_by_id Mem.find_book_by_id
    rw [hbooks]
  refine ⟨?_, ?_, ?_, ?_⟩
  · unfold DB.get_book_by_id Mem.get_book_by_id
    rw [hfind]
    cases Mem.find_book_by_id mst i <;> rfl
  · unfold DB.delete_book Mem.delete_book
    rw [hfind]
    cases Mem.find_book_by_id mst i <;> rfl
  · unfold DB.delete_book Mem.delete_book
    rw [hfind]
    cases Mem.find_book_by_id mst i with
    | none => exact hbooks
    | some b =>
      show dst.books.filter (fun b => !(b.id == i)) =
        mst.books_storage.eraseP (fun b => b.id == i)
      rw [filter_eq_eraseP_of_unique dst.books i hnodup, hbooks]
  · unfold DB.health_check Mem.health_check
    rw [hbooks]

theorem c1_witness :
    Resp.obs (DB.get_book_by_id
        { books := [⟨1, "Dune", "Herbert", "want-to-read", Jval.jnull, "", 0, 0⟩], nextId := 2 } 1)
      = Resp.obs (Mem.get_book_by_id
        { books_storage := [⟨1, "Dune", "Herbert", "want-to-read", Jval.jnull, "", 0, 0⟩], next_book_id := 2 } 1) ∧
    Resp.obs (DB.delete_book
        { books := [⟨1, "Dune", "Herbert", "want-to-read", Jval.jnull, "", 0, 0⟩], nextId := 2 } 1).1
      = Resp.obs (Mem.delete_book
        { books_storage := [⟨1, "Dune", "Herbert", "want-to-read", Jval.jnull, "", 0, 0⟩], next_book_id := 2 } 1).1 ∧
    (DB.delete_book
        { books := [⟨1, "Dune", "Herbert", "want-to-read", Jval.jnull, "", 0, 0⟩], nextId := 2 } 1).2.books
      = (Mem.delete_book
        { books_storage := [⟨1, "Dune", "Herbert", "want-to-read", Jval.jnull, "", 0, 0⟩], next_book_id := 2 } 1).2.books_storage ∧
    DB.health_check
        { books := [⟨1, "Dune", "Herbert", "want-to-read", Jval.jnull, "", 0, 0⟩], nextId := 2 }
      = Mem.health_check
        { books_storage := [⟨1, "Dune", "Herbert", "want-to-read", Jval.jnull, "", 0, 0⟩], next_book_id := 2 } :=
  c1_variants_equiv_amended
    { books := [⟨1, "Dune", "Herbert", "want-to-read", Jval.jnull, "", 0, 0⟩], nextId := 2 }
    { books_storage := [⟨1, "Dune", "Herbert", "want-to-read", Jval.jnull, "", 0, 0⟩], next_book_id := 2 }
    1 rfl (by decide)

/-! ## C4: update payloads with no recognized field -/

/-- C4 amended: in the durable variant, an update of an existing book whose
payload leaves no recognized field after filtering (title/author absent or
whitespace-only, status, rating and notes absent) is rejected with
"No valid fields to update" — an outcome distinct from not-found — and
nothing is written; the transient variant, on a non-empty payload with no
recognized field at all, instead succeeds and refreshes `date_updated`. -/
theorem c4_no_valid_fields_amended
    (dst : DState) (mst : MState) (i now : Nat) (bd bm : Book)
    (odt oda : Option String) (ode : Bool)
    (hd : DB.find_book_by_id dst i = some bd)
    (hne : (Payload.mk odt oda none none none ode).isEmptyP = false)
    (ht : ∀ t, odt = some t → (pyStripList t.data).isEmpty = true)
    (ha : ∀ a, oda = some a → (pyStripList a.data).isEmpty = true)
    (hm : Mem.find_book_by_id mst i = some bm) :
    DB.update_book dst i (Payload.mk odt oda none none none ode) now =
      (Resp.rerr 400 "No valid fields to update", dst) ∧
    (Resp.rerr 400 "No valid fields to update" : Resp) ≠ Resp.rerr 404 (DB.not_found_msg i) ∧
    Mem.update_book mst i { extra := true } now =
      (Resp.rbook 200 { bm with date_updated := now },
       { mst with books_storage :=
          Mem.setFirst i { bm with date_updated := now } mst.books_storage }) := by
  refine ⟨?_, by simp, ?_⟩
  · unfold DB.update_book
    rw [hd]
    cases odt with
    | none =>
      cases oda with
      | none =>
        simp [hne, DB.rating_check_upd, DB.num_update_fields, DB.title_upd,
          DB.author_upd, DB.countOpt]
      | some a =>
        have ha2 := ha a rfl
        simp [hne, DB.rating_check_upd, DB.num_update_fields, DB.title_upd,
          DB.author_upd, DB.countOpt, ha2]
    | some t =>
      have ht2 := ht t rfl
      cases oda with
      | none =>
        simp [hne, DB.rating_check_upd, DB.num_update_fields, DB.title_upd,
          DB.author_upd, DB.countOpt, ht2]
      | some a =>
        have ha2 := ha a rfl
        simp [hne, DB.rating_check_upd, DB.num_update_fields, DB.title_upd,
          DB.author_upd, DB.countOpt, ht2, ha2]
  · unfold Mem.update_book
    rw [hm]
    rfl

/-- C4 counterexample: in the transient variant, an update of an existing
book with the payload `{"foo": 1}` (no recognized field) returns success and
writes a refreshed `date_updated` — not the claimed "no valid fields to
update" client error with no write. -/
theorem c4_counterexample :
    (Mem.update_book c4_state 1 { extra := true } 5).1 = Resp.rbook 200 c4_book5 ∧
    (Mem.update_book c4_state 1 { extra := true } 5).2.books_storage = [c4_book5] := by
  decide

theorem c4_witness :
    DB.update_book { books := [c1_book], nextId := 2 } 1
        (Payload.mk (some " ") none none none none true) 7 =
      (Resp.rerr 400 "No valid fields to update", { books := [c1_book], nextId := 2 }) ∧
    (Resp.rerr 400 "No valid fields to update" : Resp) ≠ Resp.rerr 404 (DB.not_found_msg 1) ∧
    Mem.update_book { books_storage := [c1_book], next_book_id := 2 } 1 { extra := true } 7 =
      (Resp.rbook 200 { c1_book with date_updated := 7 },
       { books_storage :=
          Mem.setFirst 1 { c1_book with date_updated := 7 } [c1_book],
         next_book_id := 2 }) :=
  c4_no_valid_fields_amended
    { books := [c1_book], nextId := 2 } { books_storage := [c1_book], next_book_id := 2 }
    1 7 c1_book c1_book (some " ") none true
    (by decide) (by decide)
    (by intro t h; cases h; decide)
    (by intro a h; cases h)
    (by decide)

/-! ## Shape lemmas for the create and update handlers -/

theorem isEmptyP_eq_false_of_status (data : Payload) (s : String)
    (hs : data.status = some s) : data.isEmptyP = false := by
  unfold Payload.isEmptyP
  rw [hs]
  simp

theorem db_add_failure (st : DState) (data : Payload) (now : Nat) (m : String)
    (hval : DB.validate_book_data data = (false, m)) :
    DB.add_new_book st data now = (Resp.rerr 400 m, st) := by
  unfold DB.add_new_book
  rw [hval]

theorem db_add_success (st : DState) (data : Payload) (now : Nat) (m : String)
    (hval : DB.validate_book_data data = (true, m)) :
    DB.add_new_book st data now =
      (Resp.rbook 201 (DB.new_book_row st data now),
       { st with books := st.books ++ [DB.new_book_row st data now],
                 nextId := st.nextId + 1 }) := by
  unfold DB.add_new_book
  rw [hval]

theorem mem_add_success (st : MState) (data : Payload) (now : Nat)
    (hne : data.isEmptyP = false)
    (hval : Mem.validate_book_data data = (true, none)) :
    Mem.add_new_book st data now =
      (Resp.rbook 201 (Mem.new_book_row st data now),
       { st with books_storage := st.books_storage ++ [Mem.new_book_row st data now],
                 next_book_id := st.next_book_id + 1 }) := by
  unfold Mem.add_new_book
  rw [if_neg (by simp [hne]), hval]

theorem db_validate_status_ok (data : Payload) (m s : String)
    (h : DB.validate_book_data data = (true, m)) (hs : data.status = some s) :
    valid_statuses.contains s = true := by
  unfold DB.validate_book_data at h
  split at h
  · simp at h
  · split at h
    · simp at h
    · split at h
      · simp at h
      · split at h
        · simp at h
        · rename_i hcond
          rw [hs] at hcond
          simpa using hcond

theorem db_update_shape (st : DState) (i : Nat) (data : Payload) (now : Nat) :
    (DB.update_book st i data now).2 = st ∨
    ((DB.update_book st i data now).2 =
       { st with books :=
          st.books.map (fun b => if b.id == i then DB.apply_upd data now b else b) } ∧
     ∀ s, data.status = some s → valid_statuses.contains s = true) := by
  unfold DB.update_book
  split
  · exact Or.inl rfl
  · split
    · exact Or.inl rfl
    · split
      · exact Or.inl rfl
      · rename_i hstat
        split
        · exact Or.inl rfl
        · split
          · refine Or.inr ⟨rfl, ?_⟩
            intro s hs
            rw [hs] at hstat
            simpa using hstat
          · exact Or.inl rfl

/-! ## C5: status validation -/

/-- C5 amended: a status outside the three enumerated values is rejected with
the message naming the valid set by the durable variant on both create and
update, and by the transient variant on create; and in the durable variant
every stored book keeps a valid status across create, update and delete.  In
the transient variant, however, an update whose payload carries neither
`title` nor `author` skips validation entirely and stores the supplied
status verbatim, so the stored-status invariant does not hold there. -/
theorem c5_status_validation_amended
    (dst : DState) (mst : MState) (i now : Nat) (data dataM : Payload) (s : String)
    (hs : data.status = some s) (hsv : valid_statuses.contains s = false) :
    (DB.requiredMissing data.title = false → DB.requiredMissing data.author = false →
      DB.add_new_book dst data now = (Resp.rerr 400 invalid_status_msg_db, dst)) ∧
    (∀ bd, DB.find_book_by_id dst i = some bd →
      DB.update_book dst i data now = (Resp.rerr 400 invalid_status_msg_db, dst)) ∧
    ((∀ b ∈ dst.books, valid_statuses.contains b.status = true) →
      (∀ b ∈ (DB.add_new_book dst dataM now).2.books,
        valid_statuses.contains b.status = true) ∧
      (∀ b ∈ (DB.update_book dst i dataM now).2.books,
        valid_statuses.contains b.status = true) ∧
      (∀ b ∈ (DB.delete_book dst i).2.books,
        valid_statuses.contains b.status = true)) ∧
    (Mem.truthyStr data.title = true → Mem.truthyStr data.author = true →
      Mem.add_new_book mst data now = (Resp.rerr 400 invalid_status_msg_mem, mst)) ∧
    (∀ bm, Mem.find_book_by_id mst i = some bm → data.title = none →
      data.author = none → data.rating = none → data.notes = none →
      Mem.update_book mst i data now =
        (Resp.rbook 200 { bm with status := s, date_updated := now },
         { mst with books_storage := Mem.setFirst i { bm with status := s, date_updated := now } mst.books_storage })) := by
  have hneD : data.isEmptyP = false := isEmptyP_eq_false_of_status data s hs
  have hsv2 : s ∉ valid_statuses := by simpa using hsv
  refine ⟨?_, ?_, ?_, ?_, ?_⟩
  · intro ht ha
    have hval : DB.validate_book_data data = (false, invalid_status_msg_db) := by
      unfold DB.validate_book_data
      rw [if_neg (by simp [hneD]), if_neg (by simp [ht]), if_neg (by simp [ha]),
        if_pos (by simp [hs, hsv2])]
    exact db_add_failure dst data now _ hval
  · intro bd hbd
    unfold DB.update_book
    rw [hbd]
    simp [hneD, hs, hsv2]
  · intro hinv
    refine ⟨?_, ?_, ?_⟩
    · intro b hb
      rcases hval : DB.validate_book_data dataM with ⟨ok, m⟩
      cases ok with
      | false =>
        rw [db_add_failure dst dataM now m hval] at hb
        exact hinv b hb
      | true =>
        rw [db_add_success dst dataM now m hval] at hb
        rcases List.mem_append.mp hb with h | h
        · exact hinv b h
        · rw [List.mem_singleton] at h
          subst h
          show valid_statuses.contains (dataM.status.getD "want-to-read") = true
          rcases hms : dataM.status with _ | s2
          · decide
          · rw [Option.getD_some]
            exact db_validate_status_ok dataM m s2 hval hms
    · intro b hb
      rcases db_update_shape dst i dataM now with h | ⟨h, hguard⟩
      · rw [h] at hb
        exact hinv b hb
      · rw [h] at hb
        rw [List.mem_map] at hb
        obtain ⟨a, haMem, hab⟩ := hb
        by_cases hid : (a.id == i) = true
        · rw [if_pos hid] at hab
          subst hab
          show valid_statuses.contains (dataM.status.getD a.status) = true
          rcases hms : dataM.status with _ | s2
          · rw [Option.getD_none]
            exact hinv a haMem
          · rw [Option.getD_some]
            exact hguard s2 hms
        · rw [if_neg hid] at hab
          subst hab
          exact hinv a haMem
    · intro b hb
      unfold DB.delete_book at hb
      rcases hf : DB.find_book_by_id dst i with _ | bk
      · rw [hf] at hb
        exact hinv b hb
      · rw [hf] at hb
        exact hinv b (List.mem_filter.mp hb).1
  · intro ht ha
    have hval : Mem.validate_book_data data = (false, some invalid_status_msg_mem) := by
      unfold Mem.validate_book_data
      rw [if_neg (by simp [ht]), if_neg (by simp [ha]), if_pos (by simp [hs, hsv2])]
    unfold Mem.add_new_book
    rw [if_neg (by simp [hneD]), hval]
    rfl
  · intro bm hbm ht0 ha0 hr0 hn0
    unfold Mem.update_book
    rw [hbm, hneD, ht0, ha0, hs, hr0, hn0]
    rfl

def c5_bogus_book : Book :=
  { id := 1, title := "A", author := "a", status := "bogus",
    rating := Jval.jnull, notes := "", date_added := 0, date_updated := 5 }

/-- C5 counterexample: in the transient variant, updating an existing book
with the payload `{"status": "bogus"}` (no title, no author) succeeds and
stores the invalid status verbatim — validation never runs, so the stored
status is not among the three enumerated values. -/
theorem c5_counterexample :
    (Mem.update_book c4_state 1 { status := some "bogus" } 5).1 =
      Resp.rbook 200 c5_bogus_book ∧
    (Mem.update_book c4_state 1 { status := some "bogus" } 5).2.books_storage =
      [c5_bogus_book] ∧
    valid_statuses.contains "bogus" = false := by
  decide

theorem c5_witness :
    DB.add_new_book { books := [], nextId := 1 }
        { title := some "T", author := some "A", status := some "zzz" } 0 =
      (Resp.rerr 400 invalid_status_msg_db, { books := [], nextId := 1 }) ∧
    Mem.update_book { books_storage := [c1_book], next_book_id := 2 } 1
        { status := some "bogus" } 9 =
      (Resp.rbook 200 { c1_book with status := "bogus", date_updated := 9 },
       { books_storage := Mem.setFirst 1 { c1_book with status := "bogus", date_updated := 9 } [c1_book],
         next_book_id := 2 }) :=
  ⟨(c5_status_validation_amended { books := [], nextId := 1 }
      { books_storage := [c1_book], next_book_id := 2 } 1 0
      { title := some "T", author := some "A", status := some "zzz" }
      { } "zzz" rfl (by decide)).1 (by decide) (by decide),
   (c5_status_validation_amended { books := [], nextId := 1 }
      { books_storage := [c1_book], next_book_id := 2 } 1 9
      { status := some "bogus" } { } "bogus" rfl (by decide)).2.2.2.2
      c1_book (by decide) rfl rfl rfl rfl⟩

/-! ## C6: rating validation -/

theorem db_validate_rating_case (odt oda odn : Option String) (ode : Bool) (v : Jval)
    (ht : DB.requiredMissing odt = false) (ha : DB.requiredMissing oda = false) :
    DB.validate_book_data (Payload.mk odt oda none (some v) odn ode) =
      (if v = Jval.jnull then (true, "Valid")
       else
         match rating_error v with
         | some msg => (false, msg)
         | none => (true, "Valid")) := by
  unfold DB.validate_book_data
  rw [if_neg (by simp [Payload.isEmptyP]), if_neg (by simp [ht]), if_neg (by simp [ha]),
    if_neg (by simp)]

theorem mem_validate_rating_case (odt oda odn : Option String) (ode : Bool) (v : Jval)
    (htm : Mem.truthyStr odt = true) (ham : Mem.truthyStr oda = true) :
    Mem.validate_book_data (Payload.mk odt oda none (some v) odn ode) =
      (match rating_error v with
       | some msg => (false, some msg)
       | none => (true, none)) := by
  unfold Mem.validate_book_data
  rw [if_neg (by simp [htm]), if_neg (by simp [ham]), if_neg (by simp)]

/-- C6 amended: on a payload whose title and author pass the required checks
and whose status is absent, a present rating behaves as claimed in the
DURABLE validator: null passes, a value float() cannot convert fails with
"Rating must be a number", a convertible value outside [1,5] fails with the
range message, and a convertible value inside [1,5] passes.  The transient
validator agrees on non-null ratings but REJECTS a present null rating with
the not-a-number message, because it calls `float(None)`. -/
theorem c6_rating_validation_amended
    (odt oda odn : Option String) (ode : Bool) (v : Jval) (q : Rat)
    (ht : DB.requiredMissing odt = false) (ha : DB.requiredMissing oda = false)
    (htm : Mem.truthyStr odt = true) (ham : Mem.truthyStr oda = true) :
    DB.validate_book_data (Payload.mk odt oda none (some Jval.jnull) odn ode) =
      (true, "Valid") ∧
    (pyFloat? v = none → v ≠ Jval.jnull →
      DB.validate_book_data (Payload.mk odt oda none (some v) odn ode) =
        (false, "Rating must be a number")) ∧
    (pyFloat? v = some q → (q < 1 ∨ q > 5) →
      DB.validate_book_data (Payload.mk odt oda none (some v) odn ode) =
        (false, "Rating must be between 1 and 5")) ∧
    (pyFloat? v = some q → 1 ≤ q → q ≤ 5 →
      DB.validate_book_data (Payload.mk odt oda none (some v) odn ode) =
        (true, "Valid")) ∧
    Mem.validate_book_data (Payload.mk odt oda none (some Jval.jnull) odn ode) =
      (false, some "Rating must be a number") ∧
    (pyFloat? v = none →
      Mem.validate_book_data (Payload.mk odt oda none (some v) odn ode) =
        (false, some "Rating must be a number")) ∧
    (pyFloat? v = some q → (q < 1 ∨ q > 5) →
      Mem.validate_book_data (Payload.mk odt oda none (some v) odn ode) =
        (false, some "Rating must be between 1 and 5")) ∧
    (pyFloat? v = some q → 1 ≤ q → q ≤ 5 →
      Mem.validate_book_data (Payload.mk odt oda none (some v) odn ode) = (true, none)) := by
  refine ⟨?_, ?_, ?_, ?_, ?_, ?_, ?_, ?_⟩
  · rw [db_validate_rating_case odt oda odn ode Jval.jnull ht ha, if_pos rfl]
  · intro hpf hvn
    have hre : rating_error v = some "Rating must be a number" := by
      unfold rating_error
      rw [hpf]
    rw [db_validate_rating_case odt oda odn ode v ht ha, if_neg hvn, hre]
  · intro hpf hq
    have hvn : v ≠ Jval.jnull := by
      intro h
      rw [h] at hpf
      simp [pyFloat?] at hpf
    have hre : rating_error v = some "Rating must be between 1 and 5" := by
      unfold rating_error
      rw [hpf]
      show (if q < 1 ∨ q > 5 then some "Rating must be between 1 and 5" else none) =
        some "Rating must be between 1 and 5"
      rw [if_pos hq]
    rw [db_validate_rating_case odt oda odn ode v ht ha, if_neg hvn, hre]
  · intro hpf h1 h5
    have hvn : v ≠ Jval.jnull := by
      intro h
      rw [h] at hpf
      simp [pyFloat?] at hpf
    have hre : rating_error v = none := by
      unfold rating_error
      rw [hpf]
      show (if q < 1 ∨ q > 5 then some "Rating must be between 1 and 5" else none) = none
      rw [if_neg (by push_neg; exact ⟨h1, h5⟩)]
    rw [db_validate_rating_case odt oda odn ode v ht ha, if_neg hvn, hre]
  · rw [mem_validate_rating_case odt oda odn ode Jval.jnull htm ham]
    rfl
  · intro hpf
    have hre : rating_error v = some "Rating must be a number" := by
      unfold rating_error
      rw [hpf]
    rw [mem_validate_rating_case odt oda odn ode v htm ham, hre]
  · intro hpf hq
    have hre : rating_error v = some "Rating must be between 1 and 5" := by
      unfold rating_error
      rw [hpf]
      show (if q < 1 ∨ q > 5 then some "Rating must be between 1 and 5" else none) =
        some "Rating must be between 1 and 5"
      rw [if_pos hq]
    rw [mem_validate_rating_case odt oda odn ode v htm ham, hre]
  · intro hpf h1 h5
    have hre : rating_error v = none := by
      unfold rating_error
      rw [hpf]
      show (if q < 1 ∨ q > 5 then some "Rating must be between 1 and 5" else none) = none
      rw [if_neg (by push_neg; exact ⟨h1, h5⟩)]
    rw [mem_validate_rating_case odt oda odn ode v htm ham, hre]

/-- C6 counterexample: a payload with a present null rating FAILS the
transient validation with the not-a-number message, although the claim says
a null rating passes validation. -/
theorem c6_counterexample :
    Mem.validate_book_data { title := some "T", author := some "A", rating := some Jval.jnull } =
      (false, some "Rating must be a number") := by
  decide

theorem c6_witness :
    DB.validate_book_data
        (Payload.mk (some "T") (some "A") none (some Jval.jnull) none false) =
      (true, "Valid") ∧
    DB.validate_book_data
        (Payload.mk (some "T") (some "A") none (some (Jval.jstr "abc")) none false) =
      (false, "Rating must be a number") ∧
    DB.validate_book_data
        (Payload.mk (some "T") (some "A") none (some (Jval.jnum 6)) none false) =
      (false, "Rating must be between 1 and 5") ∧
    Mem.validate_book_data
        (Payload.mk (some "T") (some "A") none (some (Jval.jnum 3)) none false) =
      (true, none) :=
  ⟨(c6_rating_validation_amended (some "T") (some "A") none false (Jval.jnum 0) 0
      (by decide) (by decide) (by decide) (by decide)).1,
   (c6_rating_validation_amended (some "T") (some "A") none false (Jval.jstr "abc") 0
      (by decide) (by decide) (by decide) (by decide)).2.1 (by decide) (by decide),
   (c6_rating_validation_amended (some "T") (some "A") none false (Jval.jnum 6) 6
      (by decide) (by decide) (by decide) (by decide)).2.2.1 rfl (by decide),
   (c6_rating_validation_amended (some "T") (some "A") none false (Jval.jnum 3) 3
      (by decide) (by decide) (by decide) (by decide)).2.2.2.2.2.2.2 rfl (by decide) (by decide)⟩

/-! ## C7: required fields on create -/

/-- C7 amended: in the durable full-mode validator, a missing title, a
whitespace-only title, and a missing/blank author (with title fine) each
fail with the message naming the missing field, and a payload whose title
and author are non-empty after trimming passes the required-field check.
The transient validator rejects an absent or empty-string title, but its
truthiness test accepts a whitespace-only title (or author): trimming is
not applied there. -/
theorem c7_required_fields_amended
    (oda odn ods : Option String) (odr : Option Jval) (ode : Bool)
    (odt : Option String) (t : String) :
    ((Payload.mk none oda ods odr odn ode).isEmptyP = false →
      DB.validate_book_data (Payload.mk none oda ods odr odn ode) =
        (false, "Missing required field: title")) ∧
    ((pyStripList t.data).isEmpty = true →
      DB.validate_book_data (Payload.mk (some t) oda ods odr odn ode) =
        (false, "Missing required field: title")) ∧
    (DB.requiredMissing odt = false → DB.requiredMissing oda = true →
      DB.validate_book_data (Payload.mk odt oda ods odr odn ode) =
        (false, "Missing required field: author")) ∧
    (DB.requiredMissing odt = false → DB.requiredMissing oda = false →
      DB.validate_book_data (Payload.mk odt oda none none odn ode) = (true, "Valid")) ∧
    Mem.validate_book_data (Payload.mk none oda ods odr odn ode) =
      (false, some "Title is required") ∧
    Mem.validate_book_data (Payload.mk (some "") oda ods odr odn ode) =
      (false, some "Title is required") ∧
    (t.isEmpty = false → Mem.truthyStr oda = true →
      Mem.validate_book_data (Payload.mk (some t) oda none none odn ode) = (true, none)) := by
  refine ⟨?_, ?_, ?_, ?_, ?_, ?_, ?_⟩
  · intro hne
    simp [DB.validate_book_data, hne, DB.requiredMissing]
  · intro hts
    simp [DB.validate_book_data, Payload.isEmptyP, DB.requiredMissing, hts]
  · intro ht ha
    cases odt with
    | none => simp [DB.requiredMissing] at ht
    | some t2 => simp [DB.validate_book_data, Payload.isEmptyP, ht, ha]
  · intro ht ha
    cases odt with
    | none => simp [DB.requiredMissing] at ht
    | some t2 => simp [DB.validate_book_data, Payload.isEmptyP, ht, ha]
  · simp [Mem.validate_book_data, Mem.truthyStr]
  · have h5 : Mem.truthyStr (some "") = false := by decide
    simp [Mem.validate_book_data, h5]
  · intro hti hta
    have h1 : Mem.truthyStr (some t) = true := by simp [Mem.truthyStr, hti]
    simp [Mem.validate_book_data, h1, hta]

/-- C7 counterexample: a payload whose title is the single space " "
(whitespace-only, i.e. empty after trimming) PASSES the transient required
check, although the claim says such a title is rejected by validation. -/
theorem c7_counterexample :
    Mem.validate_book_data { title := some " ", author := some "x" } = (true, none) ∧
    (pyStripList (" " : String).data).isEmpty = true := by
  decide

theorem c7_witness :
    DB.validate_book_data (Payload.mk (some " ") (some "A") none none none false) =
      (false, "Missing required field: title") ∧
    DB.validate_book_data (Payload.mk (some "T") (some "A") none none none false) =
      (true, "Valid") ∧
    Mem.validate_book_data (Payload.mk (some " ") (some "A") none none none false) =
      (true, none) :=
  ⟨(c7_required_fields_amended (some "A") none none none false (some "T") " ").2.1
      (by decide),
   (c7_required_fields_amended (some "A") none none none false (some "T") " ").2.2.2.1
      (by decide) (by decide),
   (c7_required_fields_amended (some "A") none none none false (some "T") " ").2.2.2.2.2.2
      (by decide) (by decide)⟩

/-! ## C10: stripping of text fields -/

theorem title_upd_stripped (data : Payload) (x : String)
    (h : DB.title_upd data = some x) : pyStrip x = x := by
  unfold DB.title_upd at h
  cases hdt : data.title with
  | none =>
    rw [hdt] at h
    exact Option.noConfusion h
  | some t =>
    simp only [hdt] at h
    by_cases hb : (pyStripList t.data).isEmpty = true
    · rw [if_pos hb] at h
      exact Option.noConfusion h
    · rw [if_neg hb] at h
      injection h with h2
      subst h2
      exact pyStrip_idem t

theorem author_upd_stripped (data : Payload) (x : String)
    (h : DB.author_upd data = some x) : pyStrip x = x := by
  unfold DB.author_upd at h
  cases hdt : data.author with
  | none =>
    rw [hdt] at h
    exact Option.noConfusion h
  | some a =>
    simp only [hdt] at h
    by_cases hb : (pyStripList a.data).isEmpty = true
    · rw [if_pos hb] at h
      exact Option.noConfusion h
    · rw [if_neg hb] at h
      injection h with h2
      subst h2
      exact pyStrip_idem a

theorem cleanBook_new_book_row (st : DState) (data : Payload) (now : Nat) :
    cleanBook (DB.new_book_row st data now) :=
  ⟨pyStrip_idem _, pyStrip_idem _, pyStrip_idem _⟩

theorem cleanBook_apply_upd (data : Payload) (now : Nat) (b : Book)
    (hb : cleanBook b) : cleanBook (DB.apply_upd data now b) := by
  obtain ⟨hbt, hba, hbn⟩ := hb
  refine ⟨?_, ?_, ?_⟩
  · show pyStrip ((DB.title_upd data).getD b.title) = (DB.title_upd data).getD b.title
    cases hx : DB.title_upd data with
    | none => simpa using hbt
    | some x => simpa using title_upd_stripped data x hx
  · show pyStrip ((DB.author_upd data).getD b.author) = (DB.author_upd data).getD b.author
    cases hx : DB.author_upd data with
    | none => simpa using hba
    | some x => simpa using author_upd_stripped data x hx
  · show pyStrip ((data.notes.map pyStrip).getD b.notes) = (data.notes.map pyStrip).getD b.notes
    cases hx : data.notes with
    | none => simpa using hbn
    | some n => simpa using pyStrip_idem n

/-- C10: the durable variant strips title, author and notes on create (the
created record's fields are the stripped payload fields), and both its
create and its update preserve the invariant that every stored text field is
in stripped form; a string in stripped form starts and ends with a
non-whitespace character.  The transient variant stores title, author and
notes verbatim. -/
theorem c10_text_field_stripping
    (dst : DState) (mst : MState) (i now : Nat) (data : Payload) (code : Nat) (b : Book)
    (s : String) (c : Char) :
    (pyStrip s = s →
      (s.data.head? = some c → isPySpace c = false) ∧
      (s.data.getLast? = some c → isPySpace c = false)) ∧
    ((DB.add_new_book dst data now).1 = Resp.rbook code b →
      b.title = pyStrip (data.title.getD "") ∧
      b.author = pyStrip (data.author.getD "") ∧
      b.notes = pyStrip (data.notes.getD "") ∧ cleanBook b) ∧
    ((∀ x ∈ dst.books, cleanBook x) →
      (∀ x ∈ (DB.add_new_book dst data now).2.books, cleanBook x) ∧
      (∀ x ∈ (DB.update_book dst i data now).2.books, cleanBook x)) ∧
    ((Mem.add_new_book mst data now).1 = Resp.rbook code b →
      b.title = data.title.getD "" ∧
      b.author = data.author.getD "" ∧
      b.notes = data.notes.getD "") := by
  refine ⟨?_, ?_, ?_, ?_⟩
  · intro h
    have hdata : s.data = pyStripList s.data := congrArg String.data h.symm
    constructor
    · intro hh
      rw [hdata] at hh
      exact pyStripList_head s.data c hh
    · intro hh
      rw [hdata] at hh
      exact pyStripList_getLast s.data c hh
  · intro h
    rcases hval : DB.validate_book_data data with ⟨ok, m⟩
    cases ok with
    | false =>
      rw [db_add_failure dst data now m hval] at h
      simp at h
    | true =>
      rw [db_add_success dst data now m hval] at h
      simp only [Resp.rbook.injEq] at h
      obtain ⟨hc, hb⟩ := h
      subst hb
      exact ⟨rfl, rfl, rfl, cleanBook_new_book_row dst data now⟩
  · intro hinv
    constructor
    · intro x hx
      rcases hval : DB.validate_book_data data with ⟨ok, m⟩
      cases ok with
      | false =>
        rw [db_add_failure dst data now m hval] at hx
        exact hinv x hx
      | true =>
        rw [db_add_success dst data now m hval] at hx
        rcases List.mem_append.mp hx with h | h
        · exact hinv x h
        · rw [List.mem_singleton] at h
          subst h
          exact cleanBook_new_book_row dst data now
    · intro x hx
      rcases db_update_shape dst i data now with h | ⟨h, _⟩
      · rw [h] at hx
        exact hinv x hx
      · rw [h] at hx
        rw [List.mem_map] at hx
        obtain ⟨a, haMem, hab⟩ := hx
        by_cases hid : (a.id == i) = true
        · rw [if_pos hid] at hab
          subst hab
          exact cleanBook_apply_upd data now a (hinv a haMem)
        · rw [if_neg hid] at hab
          subst hab
          exact hinv a haMem
  · intro h
    unfold Mem.add_new_book at h
    rcases hne : data.isEmptyP with _ | _
    · rw [hne] at h
      simp only [Bool.false_eq_true, if_false] at h
      rcases hval : Mem.validate_book_data data with ⟨ok, m⟩
      rw [hval] at h
      cases ok with
      | false => simp at h
      | true =>
        simp only [Resp.rbook.injEq] at h
        obtain ⟨hc, hb⟩ := h
        subst hb
        exact ⟨rfl, rfl, rfl⟩
    · rw [hne] at h
      simp at h

theorem c10_witness :
    isPySpace 'x' = false ∧
    (c10_db_book.title = pyStrip (c10_payload.title.getD "") ∧
     c10_db_book.author = pyStrip (c10_payload.author.getD "") ∧
     c10_db_book.notes = pyStrip (c10_payload.notes.getD "") ∧ cleanBook c10_db_book) ∧
    (c10_mem_book.title = c10_payload.title.getD "" ∧
     c10_mem_book.author = c10_payload.author.getD "" ∧
     c10_mem_book.notes = c10_payload.notes.getD "") :=
  ⟨((c10_text_field_stripping DB.initState Mem.initState 0 0 c10_payload 201
      c10_db_book "x" 'x').1 (by decide)).1 (by decide),
   (c10_text_field_stripping DB.initState Mem.initState 0 0 c10_payload 201
      c10_db_book "x" 'x').2.1 (by decide),
   (c10_text_field_stripping DB.initState Mem.initState 0 0 c10_payload 201
      c10_mem_book "x" 'x').2.2.2 (by decide)⟩

end ReadingList
